import Mathlib

/-!
Verification of the grocery-list data-access layer (`src/unnamed/part_001`,
first file) and the quantity handling of the add/edit form
(`src/src/components/AddItemModal.tsx`).

The `grocery_items` table is modelled as a list of rows in insertion
(rowid) order together with the AUTOINCREMENT counter.  Every accessor is a
pure function on that state; its `fail : Option DBError` argument models
whether the underlying SQLite call throws (`some e`) or succeeds (`none`),
so the catch branches of the source become the `some` branches here.
`Date.now()` is passed in explicitly (`now : Nat`, epoch milliseconds; a
`clock` function when a loop reads it repeatedly).
-/

namespace Grocery

/-- One row of the `grocery_items` table (schema created by `initDatabase`,
src/unnamed/part_001 lines 49-58): `id` INTEGER PRIMARY KEY AUTOINCREMENT,
`name` TEXT NOT NULL, `quantity` INTEGER DEFAULT 1, `category` TEXT,
`bought` INTEGER DEFAULT 0, `created_at` INTEGER (epoch milliseconds).
Every INSERT in the code supplies all of these columns explicitly, so the
SQL column defaults never fire. -/
structure GroceryItem where
  id : Nat
  name : String
  quantity : Int
  category : String
  bought : Int
  created_at : Nat
  deriving DecidableEq

/-- State of the `grocery_items` table: rows in insertion (rowid) order and
the AUTOINCREMENT counter holding the next id to assign. -/
structure DB where
  items : List GroceryItem
  nextId : Nat
  deriving DecidableEq

/-- An error thrown by the underlying SQLite layer; the code only logs its
content, so it is opaque here. -/
abbrev DBError := String

/-- The persistent store: `none` while the `grocery_items` table does not
exist yet, `some db` once it has been created. -/
abbrev Store := Option DB

/-- The descending `created_at` order of `ORDER BY created_at DESC` used by
`getAllItems`. -/
def createdDesc (a b : GroceryItem) : Prop :=
  b.created_at ≤ a.created_at

instance : DecidableRel createdDesc := fun a b =>
  inferInstanceAs (Decidable (b.created_at ≤ a.created_at))

instance : IsTotal GroceryItem createdDesc :=
  ⟨fun a b => Or.symm (Nat.le_total a.created_at b.created_at)⟩

instance : IsTrans GroceryItem createdDesc :=
  ⟨fun _ _ _ hab hbc => Nat.le_trans hbc hab⟩

/-- `addItem` (src/unnamed/part_001 lines 128-144): INSERT INTO
grocery_items (name, quantity, category, bought, created_at) VALUES
(?, ?, ?, 0, ?) with `Date.now()` (`now`) as `created_at`; on success the
new rowid (`lastInsertRowId`) is returned, while a thrown store error is
caught and reported as `null` (`none`) with the table unchanged. -/
def addItem (db : DB) (name : String) (quantity : Int) (category : String)
    (now : Nat) (fail : Option DBError) : DB × Option Nat :=
  match fail with
  | some _ => (db, none)
  | none =>
    let row : GroceryItem :=
      { id := db.nextId, name := name, quantity := quantity,
        category := category, bought := 0, created_at := now }
    ({ items := db.items ++ [row], nextId := db.nextId + 1 }, some db.nextId)

/-- The three sample rows inserted by `seedSampleData`
(src/unnamed/part_001 lines 87-91), as (name, quantity, category). -/
def sampleItems : List (String × Int × String) :=
  [("Sữa", 2, "Đồ uống"),
   ("Trứng", 10, "Thực phẩm tươi sống"),
   ("Bánh mì", 1, "Thực phẩm khô")]

/-- The seeding loop of `seedSampleData` (src/unnamed/part_001 lines
93-98), stopped after the first `k` INSERTs: each iteration runs the same
statement as `addItem`, with `Date.now()` read afresh (`clock 0`,
`clock 1`, `clock 2`).  Each `runAsync` in the source can throw; a throw
at the i-th INSERT leaves the first i rows inserted and abandons the rest,
which is exactly a run with `k = i`. -/
def insertSamples (db : DB) (clock : Nat → Nat) (k : Nat) : DB :=
  ((sampleItems.take k).foldl
    (fun acc it =>
      ((addItem acc.1 it.1 it.2.1 it.2.2 (clock acc.2) none).1, acc.2 + 1))
    (db, 0)).1

/-- `seedSampleData` (src/unnamed/part_001 lines 75-107): SELECT COUNT(*)
on the table; when the count is 0 the three sample items are inserted,
otherwise nothing is.  A store error thrown by any of these calls is
caught at lines 104-106 and swallowed, so the function never throws into
`initDatabase` and the rows inserted before the throw remain.  `sfail`
names the first SQLite call of this function that throws, in issue order:
`some 0` is the COUNT (nothing inserted), `some (j + 1)` is the j-th
INSERT (the first j rows inserted), and an index never reached means no
error; `none` is a fully error-free run. -/
def seedSampleData (db : DB) (clock : Nat → Nat) (sfail : Option Nat) : DB :=
  match sfail with
  | some 0 => db
  | some (j + 1) =>
    if db.items.length = 0 then insertSamples db clock j else db
  | none =>
    if db.items.length = 0 then insertSamples db clock sampleItems.length
    else db

/-- `initDatabase` (src/unnamed/part_001 lines 44-70): inside try/catch,
runs CREATE TABLE IF NOT EXISTS — a missing table is created empty with
the AUTOINCREMENT counter at 1, an existing table is left as it is — then
calls `seedSampleData` and returns `true`.  `fail` models the open or
CREATE call throwing: that error is caught and reported as `false` with
the store unchanged.  `sfail` is handed to `seedSampleData`, whose own
catch swallows seeding errors, so `initDatabase` still returns `true` on
them. -/
def initDatabase (s : Store) (clock : Nat → Nat) (fail : Option DBError)
    (sfail : Option Nat) : Store × Bool :=
  match fail with
  | some _ => (s, false)
  | none =>
    let db :=
      match s with
      | some db => db
      | none => { items := [], nextId := 1 }
    (some (seedSampleData db clock sfail), true)

/-- `getAllItems` (src/unnamed/part_001 lines 112-123): SELECT * FROM
grocery_items ORDER BY created_at DESC, modelled as a sort of the rows by
descending `created_at`; when the store throws, the catch branch returns
the empty list. -/
def getAllItems (db : DB) (fail : Option DBError) : List GroceryItem :=
  match fail with
  | some _ => []
  | none => List.insertionSort createdDesc db.items

/-- `updateItem` (src/unnamed/part_001 lines 149-166): UPDATE grocery_items
SET name = ?, quantity = ?, category = ? WHERE id = ?; returns `true` also
when no row matches, and `false` with the table unchanged when the store
throws. -/
def updateItem (db : DB) (id : Nat) (name : String) (quantity : Int)
    (category : String) (fail : Option DBError) : DB × Bool :=
  match fail with
  | some _ => (db, false)
  | none =>
    ({ db with
        items := db.items.map fun it =>
          if it.id = id then
            { it with name := name, quantity := quantity, category := category }
          else it },
      true)

/-- `toggleBoughtStatus` (src/unnamed/part_001 lines 171-183): UPDATE
grocery_items SET bought = ? WHERE id = ?; returns `true` also when no row
matches, and `false` with the table unchanged when the store throws. -/
def toggleBoughtStatus (db : DB) (id : Nat) (bought : Int)
    (fail : Option DBError) : DB × Bool :=
  match fail with
  | some _ => (db, false)
  | none =>
    ({ db with
        items := db.items.map fun it =>
          if it.id = id then { it with bought := bought } else it },
      true)

/-- `deleteItem` (src/unnamed/part_001 lines 188-197): DELETE FROM
grocery_items WHERE id = ?; returns `true`, or `false` with the table
unchanged when the store throws. -/
def deleteItem (db : DB) (id : Nat) (fail : Option DBError) : DB × Bool :=
  match fail with
  | some _ => (db, false)
  | none => ({ db with items := db.items.filter fun it => it.id != id }, true)

/-- `deleteAllBoughtItems` (src/unnamed/part_001 lines 202-211): DELETE
FROM grocery_items WHERE bought = 1; returns `true`, or `false` with the
table unchanged when the store throws. -/
def deleteAllBoughtItems (db : DB) (fail : Option DBError) : DB × Bool :=
  match fail with
  | some _ => (db, false)
  | none => ({ db with items := db.items.filter fun it => it.bought != 1 }, true)

/-- `clearAllItems` (src/unnamed/part_001 lines 216-225): DELETE FROM
grocery_items (no WHERE clause); returns `true`, or `false` with the table
unchanged when the store throws. -/
def clearAllItems (db : DB) (fail : Option DBError) : DB × Bool :=
  match fail with
  | some _ => (db, false)
  | none => ({ db with items := [] }, true)

/-- Leading decimal digits of a character list, left to right with an
accumulator; scanning stops at the first non-digit. -/
def digitsAcc : List Char → Nat → Nat
  | [], acc => acc
  | c :: cs, acc =>
    if c.isDigit then digitsAcc cs (acc * 10 + (c.toNat - 48)) else acc

/-- Value of the longest leading run of decimal digits, or `none` when the
list does not start with a digit. -/
def leadingNat : List Char → Option Nat
  | [] => none
  | c :: cs => if c.isDigit then some (digitsAcc (c :: cs) 0) else none

/-- Skip leading whitespace characters, as JavaScript parseInt does before
reading the number. -/
def skipWs : List Char → List Char
  | [] => []
  | c :: cs =>
    if c = ' ' ∨ c = '\t' ∨ c = '\n' ∨ c = '\r' then skipWs cs else c :: cs

/-- Model of the JavaScript String.trim as used on the name field of
AddItemModal: remove leading and trailing whitespace. -/
def jsTrim (s : String) : List Char :=
  skipWs (skipWs s.data.reverse).reverse

/-- Model of the JavaScript parseInt builtin as applied to the quantity
text field of AddItemModal (base-10 input from the numeric keyboard; the 0x
radix prefix is not modelled): skip leading whitespace, read an optional
sign, then the longest leading run of decimal digits. `none` stands for
NaN (no digits found). -/
def jsParseInt (s : String) : Option Int :=
  match skipWs s.data with
  | '-' :: cs => (leadingNat cs).map fun n => -(n : Int)
  | '+' :: cs => (leadingNat cs).map fun n => (n : Int)
  | cs => (leadingNat cs).map fun n => (n : Int)

/-- The computation `const quantityNum = parseInt(quantity) || 1` in
`handleSave` (src/src/components/AddItemModal.tsx line 88): `||` replaces
the falsy results NaN and 0 by 1 and keeps every other number, negative
ones included. -/
def quantityNum (s : String) : Int :=
  match jsParseInt s with
  | none => 1
  | some n => if n = 0 then 1 else n

/-- Mapping a function that fixes every member of a list leaves the list
unchanged. -/
theorem map_eq_self_of_mem {α : Type} {f : α → α} :
    ∀ {l : List α}, (∀ a ∈ l, f a = a) → l.map f = l
  | [], _ => rfl
  | a :: l, h => by
    rw [List.map_cons, h a (List.mem_cons_self a l),
      map_eq_self_of_mem fun b hb => h b (List.mem_cons_of_mem a hb)]

/-- The error-free seeding loop appends exactly the three sample rows,
with consecutive ids and the per-iteration clock values. -/
theorem insertSamples_eq (db : DB) (clock : Nat → Nat) :
    insertSamples db clock sampleItems.length =
      { items := db.items ++
          [{ id := db.nextId, name := "Sữa", quantity := 2,
             category := "Đồ uống", bought := 0, created_at := clock 0 },
           { id := db.nextId + 1, name := "Trứng", quantity := 10,
             category := "Thực phẩm tươi sống", bought := 0,
             created_at := clock 1 },
           { id := db.nextId + 2, name := "Bánh mì", quantity := 1,
             category := "Thực phẩm khô", bought := 0,
             created_at := clock 2 }],
        nextId := db.nextId + 3 } := by
  simp [insertSamples, sampleItems, addItem]

/-- After error-free seeding, the table is never empty: either it already
had rows, or the three samples were just inserted. -/
theorem seedSampleData_ne_nil (db : DB) (clock : Nat → Nat) :
    (seedSampleData db clock none).items ≠ [] := by
  show (if db.items.length = 0 then
      insertSamples db clock sampleItems.length
    else db).items ≠ []
  split
  · rw [insertSamples_eq]
    simp
  · next h => simpa [List.length_eq_zero] using h

/-- Seeding a non-empty table inserts nothing, whether or not a store
error is thrown and swallowed along the way. -/
theorem seedSampleData_of_ne_nil (db : DB) (clock : Nat → Nat)
    (sfail : Option Nat) (h : db.items ≠ []) :
    seedSampleData db clock sfail = db := by
  have hlen : ¬db.items.length = 0 := by
    simpa [List.length_eq_zero] using h
  cases sfail with
  | none => simp [seedSampleData, hlen]
  | some j =>
    cases j with
    | zero => rfl
    | succ k => simp [seedSampleData, hlen]

/-- Claim C1 fails as stated: starting from a freshly initialized store to
which the user never added anything, add("Milk", 2, "Drinks") followed by
listAll returns four rows, not one, because initialization seeds three
sample rows into the empty table. -/
theorem C1_counterexample :
    (getAllItems
        (addItem (((initDatabase none (fun i => i) none none).1).getD
            { items := [], nextId := 1 })
          "Milk" 2 "Drinks" 10 none).1 none).length = 4 ∧
      (4 : Nat) ≠ 1 := by decide

/-- Claim C1 (amended): starting from an initialized store from which every
row has been removed (the table is empty), add("Milk", 2, "Drinks")
succeeds and listAll returns exactly one row with name "Milk", quantity 2,
category "Drinks", bought 0; after toggleBought on that id with flag 1 the
row has bought 1; and after removeAllBought, listAll returns the empty
list. -/
theorem C1_scenario (db : DB) (t : Nat) (h : db.items = []) :
    (addItem db "Milk" 2 "Drinks" t none).2 = some db.nextId ∧
    getAllItems (addItem db "Milk" 2 "Drinks" t none).1 none =
      [{ id := db.nextId, name := "Milk", quantity := 2, category := "Drinks",
         bought := 0, created_at := t }] ∧
    getAllItems
        (toggleBoughtStatus (addItem db "Milk" 2 "Drinks" t none).1
          db.nextId 1 none).1 none =
      [{ id := db.nextId, name := "Milk", quantity := 2, category := "Drinks",
         bought := 1, created_at := t }] ∧
    getAllItems
        (deleteAllBoughtItems
          (toggleBoughtStatus (addItem db "Milk" 2 "Drinks" t none).1
            db.nextId 1 none).1 none).1 none = [] := by
  refine ⟨rfl, ?_, ?_, ?_⟩ <;>
    simp [addItem, getAllItems, toggleBoughtStatus, deleteAllBoughtItems, h]

/-- Witness for C1_scenario at a concrete empty store. -/
theorem C1_scenario_witness :
    getAllItems
        (addItem { items := [], nextId := 1 } "Milk" 2 "Drinks" 0 none).1
        none =
      [{ id := 1, name := "Milk", quantity := 2, category := "Drinks",
         bought := 0, created_at := 0 }] :=
  (C1_scenario { items := [], nextId := 1 } 0 rfl).2.1

/-- Claim C2 fails as stated: the quantity input "-3" is not a positive
integer, yet parseInt("-3") is the truthy value -3, so the || 1 fallback
does not fire and the stored row carries quantity -3, not the default 1. -/
theorem C2_counterexample :
    quantityNum "-3" = -3 ∧
    (addItem { items := [], nextId := 1 } "X" (quantityNum "-3") "" 0
        none).1.items =
      [{ id := 1, name := "X", quantity := -3, category := "", bought := 0,
         created_at := 0 }] ∧
    (-3 : Int) ≠ 1 := by decide

/-- Claim C2 (amended): a quantity input that is absent or non-numeric
(parseInt gives NaN) or parses to zero is replaced by the default 1 before
the row is stored, but any other parsed value — negative ones included —
is kept as is; the accessor stores the computed quantity unchanged. -/
theorem C2_quantityDefault (s : String) (db : DB) (name category : String)
    (t : Nat) :
    (jsParseInt s = none → quantityNum s = 1) ∧
    (jsParseInt s = some 0 → quantityNum s = 1) ∧
    (∀ n : Int, jsParseInt s = some n → ¬n = 0 → quantityNum s = n) ∧
    (addItem db name (quantityNum s) category t none).1.items =
      db.items ++
        [{ id := db.nextId, name := name, quantity := quantityNum s,
           category := category, bought := 0, created_at := t }] := by
  refine ⟨fun h => ?_, fun h => ?_, fun n h hn => ?_, rfl⟩
  · simp [quantityNum, h]
  · simp [quantityNum, h]
  · simp [quantityNum, h, hn]

/-- Witness for C2_quantityDefault on the inputs "" (absent), "0" (zero)
and "-3" (negative, kept as is). -/
theorem C2_quantityDefault_witness :
    quantityNum "" = 1 ∧ quantityNum "0" = 1 ∧ quantityNum "-3" = -3 :=
  ⟨(C2_quantityDefault "" { items := [], nextId := 1 } "X" "" 0).1
      (by decide),
   (C2_quantityDefault "0" { items := [], nextId := 1 } "X" "" 0).2.1
      (by decide),
   (C2_quantityDefault "-3" { items := [], nextId := 1 } "X" "" 0).2.2.1
      (-3) (by decide) (by decide)⟩

/-- Claim C3: for a name that is non-empty after trimming, addItem appends
exactly one new row with the given fields, bought 0 and created_at equal
to the call time (hence at or after the call time), leaves every
pre-existing row unchanged, returns the newly assigned id on success, and
returns the null sentinel with the table unchanged on error. -/
theorem C3_addItem (db : DB) (name : String) (q : Int) (category : String)
    (t : Nat) (hname : jsTrim name ≠ []) :
    (addItem db name q category t none).2 = some db.nextId ∧
    (addItem db name q category t none).1.items =
      db.items ++
        [{ id := db.nextId, name := name, quantity := q, category := category,
           bought := 0, created_at := t }] ∧
    (∀ it ∈ (addItem db name q category t none).1.items,
      it ∈ db.items ∨ t ≤ it.created_at) ∧
    (∀ e : DBError, addItem db name q category t (some e) = (db, none)) := by
  refine ⟨rfl, rfl, ?_, fun e => rfl⟩
  intro it hit
  simp only [addItem, List.mem_append, List.mem_singleton] at hit
  rcases hit with h | h
  · exact Or.inl h
  · subst h
    exact Or.inr (Nat.le_refl t)

/-- Witness for C3_addItem at a concrete insertion. -/
theorem C3_addItem_witness :
    (addItem { items := [], nextId := 1 } "Milk" 2 "Drinks" 5 none).2 =
      some 1 :=
  (C3_addItem { items := [], nextId := 1 } "Milk" 2 "Drinks" 5
    (by decide)).1

/-- Claim C4 fails as stated: initDatabase() is not idempotent on the
program. When the COUNT issued by seeding throws, the error is swallowed
and the call still returns true with the table left empty; the second call
then seeds three rows, changing the store state. -/
theorem C4_counterexample :
    (initDatabase none (fun i => i) none (some 0)).2 = true ∧
    (initDatabase none (fun i => i) none (some 0)).1 =
      some { items := [], nextId := 1 } ∧
    (initDatabase (initDatabase none (fun i => i) none (some 0)).1
        (fun i => i) none none).1 ≠
      (initDatabase none (fun i => i) none (some 0)).1 := by decide

/-- Claim C4 (amended): initDatabase ensures the table exists (creating it
only if absent) and reports success even when a seeding error was
swallowed; after a first call whose seeding ran without a swallowed store
error, a second call — whatever its clock and even if its own seeding
throws — leaves the store state unchanged and returns success; and after
any successful initDatabase, getAllItems succeeds, returning a permutation
of the stored rows (possibly empty). -/
theorem C4_initDatabase (s : Store) (clock clock2 : Nat → Nat)
    (sfail sfail2 : Option Nat) :
    (initDatabase s clock none sfail).2 = true ∧
    (initDatabase s clock none sfail).1.isSome = true ∧
    initDatabase (initDatabase s clock none none).1 clock2 none sfail2 =
      ((initDatabase s clock none none).1, true) ∧
    (∀ db : DB, (initDatabase s clock none sfail).1 = some db →
      List.Perm (getAllItems db none) db.items) := by
  have hstate : (initDatabase s clock none none).1 =
      some (seedSampleData (s.getD { items := [], nextId := 1 }) clock
        none) := by
    cases s <;> rfl
  have hne : (seedSampleData (s.getD { items := [], nextId := 1 }) clock
      none).items ≠ [] :=
    seedSampleData_ne_nil _ clock
  refine ⟨?_, ?_, ?_, ?_⟩
  · cases s <;> rfl
  · cases s <;> rfl
  · rw [hstate]
    simp [initDatabase, seedSampleData_of_ne_nil _ clock2 sfail2 hne]
  · intro db _
    exact List.perm_insertionSort createdDesc db.items

/-- Witness for C4_initDatabase: repeated initialization from the fresh
store, the first seeding error-free, returns the state of the first call
unchanged. -/
theorem C4_initDatabase_witness :
    initDatabase (initDatabase none (fun i => i) none none).1 (fun i => i)
        none none =
      ((initDatabase none (fun i => i) none none).1, true) :=
  (C4_initDatabase none (fun i => i) (fun i => i) none none).2.2.1

/-- Claim C5: getAllItems returns a permutation of the stored rows — no row
omitted, duplicated or altered — sorted by created_at descending. -/
theorem C5_getAllItems (db : DB) :
    List.Perm (getAllItems db none) db.items ∧
    List.Sorted createdDesc (getAllItems db none) :=
  ⟨List.perm_insertionSort createdDesc db.items,
   List.sorted_insertionSort createdDesc db.items⟩

/-- Claim C6: updateItem returns success, keeps the counter and the number
of rows, overwrites name/quantity/category of exactly the rows matching
the id while preserving their id, created_at and bought, leaves every
other row unchanged, and on a non-existent id changes nothing while still
returning success. -/
theorem C6_updateItem (db : DB) (id : Nat) (n : String) (q : Int)
    (c : String) :
    (updateItem db id n q c none).2 = true ∧
    (updateItem db id n q c none).1.nextId = db.nextId ∧
    (updateItem db id n q c none).1.items.length = db.items.length ∧
    (∀ i : Nat, ∀ old : GroceryItem, db.items[i]? = some old →
      ∃ new : GroceryItem,
        (updateItem db id n q c none).1.items[i]? = some new ∧
        new.id = old.id ∧ new.created_at = old.created_at ∧
        new.bought = old.bought ∧
        (old.id = id → new.name = n ∧ new.quantity = q ∧ new.category = c) ∧
        (¬old.id = id → new = old)) ∧
    ((∀ it ∈ db.items, ¬it.id = id) → (updateItem db id n q c none).1 = db) := by
  refine ⟨rfl, rfl, ?_, ?_, ?_⟩
  · simp [updateItem]
  · intro i old hold
    by_cases hid : old.id = id
    · refine ⟨{ old with name := n, quantity := q, category := c }, ?_, rfl,
        rfl, rfl, fun _ => ⟨rfl, rfl, rfl⟩, fun hne => absurd hid hne⟩
      simp [updateItem, List.getElem?_map, hold, hid]
    · refine ⟨old, ?_, rfl, rfl, rfl, fun hh => absurd hh hid, fun _ => rfl⟩
      simp [updateItem, List.getElem?_map, hold, hid]
  · intro hall
    have hmap : db.items.map (fun it =>
        if it.id = id then
          { it with name := n, quantity := q, category := c }
        else it) = db.items :=
      map_eq_self_of_mem fun a ha => if_neg (hall a ha)
    simp [updateItem, hmap]

/-- Witness for C6_updateItem: updating a non-existent id leaves a concrete
store unchanged. -/
theorem C6_updateItem_witness :
    (updateItem
        { items :=
            [{ id := 1, name := "A", quantity := 1, category := "",
               bought := 0, created_at := 0 }],
          nextId := 2 }
        9 "B" 3 "C" none).1 =
      { items :=
          [{ id := 1, name := "A", quantity := 1, category := "",
             bought := 0, created_at := 0 }],
        nextId := 2 } :=
  (C6_updateItem
    { items :=
        [{ id := 1, name := "A", quantity := 1, category := "",
           bought := 0, created_at := 0 }],
      nextId := 2 }
    9 "B" 3 "C").2.2.2.2 (by decide)

/-- Claim C7: when every row carrying the given id has bought 0,
toggleBought(id, 1) followed by toggleBought(id, 0) returns success twice
and restores the store exactly — the flag round-trips and no other field
of any row changes. -/
theorem C7_toggleRoundTrip (db : DB) (id : Nat)
    (h : ∀ it ∈ db.items, it.id = id → it.bought = 0) :
    (toggleBoughtStatus db id 1 none).2 = true ∧
    (toggleBoughtStatus (toggleBoughtStatus db id 1 none).1 id 0 none).2 =
      true ∧
    (toggleBoughtStatus (toggleBoughtStatus db id 1 none).1 id 0 none).1 =
      db := by
  refine ⟨rfl, rfl, ?_⟩
  simp only [toggleBoughtStatus, List.map_map]
  have hmap : db.items.map
      ((fun it => if it.id = id then { it with bought := 0 } else it) ∘
        (fun it => if it.id = id then { it with bought := 1 } else it)) =
      db.items := by
    refine map_eq_self_of_mem fun a ha => ?_
    by_cases hid : a.id = id
    · have hb : a.bought = 0 := h a ha hid
      obtain ⟨i, nm, q, c, b, cr⟩ := a
      simp only at hid hb
      simp [Function.comp, hid, hb]
    · simp [Function.comp, hid]
  simp [hmap]

/-- Witness for C7_toggleRoundTrip on a concrete one-row store. -/
theorem C7_toggleRoundTrip_witness :
    (toggleBoughtStatus
        (toggleBoughtStatus
          { items :=
              [{ id := 1, name := "A", quantity := 1, category := "",
                 bought := 0, created_at := 0 }],
            nextId := 2 } 1 1 none).1
        1 0 none).1 =
      { items :=
          [{ id := 1, name := "A", quantity := 1, category := "",
             bought := 0, created_at := 0 }],
        nextId := 2 } :=
  (C7_toggleRoundTrip
    { items :=
        [{ id := 1, name := "A", quantity := 1, category := "",
           bought := 0, created_at := 0 }],
      nextId := 2 }
    1 (by decide)).2.2

/-- Claim C8: deleteAllBoughtItems returns success, no surviving row has
bought 1, every row with a different flag value survives unchanged, the
survivors form a sublist of the original rows (nothing reordered or
duplicated), and the counter is untouched. -/
theorem C8_deleteAllBought (db : DB) :
    (deleteAllBoughtItems db none).2 = true ∧
    (∀ it ∈ (deleteAllBoughtItems db none).1.items, ¬it.bought = 1) ∧
    (∀ it ∈ db.items, ¬it.bought = 1 →
      it ∈ (deleteAllBoughtItems db none).1.items) ∧
    List.Sublist (deleteAllBoughtItems db none).1.items db.items ∧
    (deleteAllBoughtItems db none).1.nextId = db.nextId := by
  refine ⟨rfl, ?_, ?_, ?_, rfl⟩
  · intro it hit
    have hp := (List.mem_filter.mp hit).2
    simpa using hp
  · intro it hit hb
    exact List.mem_filter.mpr ⟨hit, by simpa using hb⟩
  · exact List.filter_sublist db.items

/-- Witness for C8_deleteAllBought: an unbought row survives the purge of a
concrete store. -/
theorem C8_deleteAllBought_witness :
    ({ id := 1, name := "A", quantity := 1, category := "", bought := 0,
       created_at := 0 } : GroceryItem) ∈
      (deleteAllBoughtItems
        { items :=
            [{ id := 1, name := "A", quantity := 1, category := "",
               bought := 0, created_at := 0 },
             { id := 2, name := "B", quantity := 1, category := "",
               bought := 1, created_at := 1 }],
          nextId := 3 } none).1.items :=
  (C8_deleteAllBought
    { items :=
        [{ id := 1, name := "A", quantity := 1, category := "",
           bought := 0, created_at := 0 },
         { id := 2, name := "B", quantity := 1, category := "",
           bought := 1, created_at := 1 }],
      nextId := 3 }).2.2.1 _ (by decide) (by decide)

/-- Claim C9 fails as stated: not every underlying store error makes
initialize return the boolean failure value. A store error thrown inside
seeding (here the COUNT) is caught and swallowed by seedSampleData, and
initDatabase still returns true, not false. -/
theorem C9_counterexample :
    initDatabase none (fun i => i) none (some 0) =
      (some { items := [], nextId := 1 }, true) ∧
    true ≠ false := by decide

/-- Claim C9 (amended): every store error is caught at an accessor
boundary, so no exception reaches the presentation layer — getAllItems
returns the empty list, addItem returns the null sentinel, and updateItem,
toggleBoughtStatus, deleteItem and deleteAllBoughtItems return false, each
leaving the state unchanged; initDatabase returns false with the store
unchanged when opening or table creation throws, but an error thrown
during its seeding step is swallowed inside seedSampleData and initDatabase
still returns true; and a caller of getAllItems cannot tell a failed read
from an empty table. -/
theorem C9_errorHandling (db : DB) (s : Store) (e : DBError) (j : Nat)
    (name category : String) (q b : Int) (id t : Nat) (clock : Nat → Nat)
    (sfail : Option Nat) :
    getAllItems db (some e) = [] ∧
    addItem db name q category t (some e) = (db, none) ∧
    initDatabase s clock (some e) sfail = (s, false) ∧
    (initDatabase s clock none (some j)).2 = true ∧
    updateItem db id name q category (some e) = (db, false) ∧
    toggleBoughtStatus db id b (some e) = (db, false) ∧
    deleteItem db id (some e) = (db, false) ∧
    deleteAllBoughtItems db (some e) = (db, false) ∧
    getAllItems { items := [], nextId := db.nextId } none =
      getAllItems db (some e) :=
  ⟨rfl, rfl, rfl, rfl, rfl, rfl, rfl, rfl, rfl⟩

/-- Claim C10 fails as stated: a freshly created store can be empty after
a successful initialize(). When the COUNT issued by seeding throws, the
error is swallowed, nothing is inserted, and initDatabase still returns
true with the newly created table empty. -/
theorem C10_counterexample :
    (initDatabase none (fun i => i) none (some 0)).2 = true ∧
    ((initDatabase none (fun i => i) none (some 0)).1.getD
        { items := [], nextId := 1 }).items = [] := by decide

/-- Claim C10 (amended): initializing a store with no table creates it
and, when seeding runs without a swallowed store error, seeds exactly the
three sample rows with bought 0 and the per-insert clock times;
initializing over a non-empty table inserts nothing, even when a seeding
call throws; and every successful initialization whose seeding ran without
a swallowed store error leaves the table non-empty — though a swallowed
seeding error can leave a successful initialization with an empty
table. -/
theorem C10_seeding (clock : Nat → Nat) (db : DB) (sfail : Option Nat)
    (hne : db.items ≠ []) :
    initDatabase none clock none none =
      (some
        { items :=
            [{ id := 1, name := "Sữa", quantity := 2, category := "Đồ uống",
               bought := 0, created_at := clock 0 },
             { id := 2, name := "Trứng", quantity := 10,
               category := "Thực phẩm tươi sống", bought := 0,
               created_at := clock 1 },
             { id := 3, name := "Bánh mì", quantity := 1,
               category := "Thực phẩm khô", bought := 0,
               created_at := clock 2 }],
          nextId := 4 }, true) ∧
    initDatabase (some db) clock none sfail = (some db, true) ∧
    (∀ s : Store, ∀ db1 : DB, (initDatabase s clock none none).1 = some db1 →
      db1.items ≠ []) := by
  refine ⟨?_, ?_, ?_⟩
  · simp [initDatabase, seedSampleData, insertSamples_eq]
  · simp [initDatabase, seedSampleData_of_ne_nil db clock sfail hne]
  · intro s db1 h1
    have hstate : (initDatabase s clock none none).1 =
        some (seedSampleData (s.getD { items := [], nextId := 1 }) clock
          none) := by
      cases s <;> rfl
    rw [hstate] at h1
    have hdb1 : db1 = seedSampleData (s.getD { items := [], nextId := 1 })
        clock none := (Option.some.injEq _ _ ▸ h1).symm
    rw [hdb1]
    exact seedSampleData_ne_nil _ clock

/-- Witness for C10_seeding: initializing over a concrete non-empty table
inserts nothing. -/
theorem C10_seeding_witness :
    initDatabase
        (some
          { items :=
              [{ id := 1, name := "A", quantity := 1, category := "",
                 bought := 0, created_at := 0 }],
            nextId := 2 })
        (fun i => i) none none =
      (some
        { items :=
            [{ id := 1, name := "A", quantity := 1, category := "",
               bought := 0, created_at := 0 }],
          nextId := 2 }, true) :=
  (C10_seeding (fun i => i)
    { items :=
        [{ id := 1, name := "A", quantity := 1, category := "",
           bought := 0, created_at := 0 }],
      nextId := 2 }
    none (by decide)).2.1

end Grocery
